import Mathlib

/-!
# Link-layer service (LLS) block of Gatekeeper: `lls/main.c`

A shallow embedding of `src/lls/main.c` and proofs about it.

Conventions of the embedding.

* Every function of `main.c` is a Lean function of the same name.  A C
  function with effects takes the state of the outside world `w : W` and
  returns its C return value, the new world, and the list of the external
  calls it made, in program order (`List Event`).
* Every function that `main.c` calls but does not define (DPDK, the mailbox,
  the cache, the launch framework, the ARP handler) is a field of
  `Externals W`: an arbitrary function of the world.  Constants and sizes
  that the headers define are fields of `Externals W` as well.
* Pointers are taken to be valid wherever the code dereferences them without
  a test; the one test for `NULL` in the file (`run_lls`) is modelled with
  `Option`.  The file-scope `lls_conf` is passed explicitly.
* Machine integers are `Nat`/`Int`; bytes are `Nat`.
-/

set_option autoImplicit false

namespace LLS

/-! ## Data model -/

/-- An Ethernet address, `struct ether_addr`: its `addr_bytes`. -/
structure ether_addr where
  addr_bytes : List Nat
  deriving DecidableEq, Repr

/-- A 16-bit field stored in network byte order: its two bytes in memory. -/
structure be16 where
  hi : Nat
  lo : Nat
  deriving DecidableEq, Repr

/-- The Ethernet header, `struct ether_hdr`. -/
structure ether_hdr where
  d_addr : ether_addr
  s_addr : ether_addr
  ether_type : be16
  deriving DecidableEq, Repr

/-- A packet buffer, `struct rte_mbuf *`: the address of the buffer and the
Ethernet header that `rte_pktmbuf_mtod` finds at the start of its data. -/
structure rte_mbuf where
  addr : Nat
  eth_hdr : ether_hdr
  deriving DecidableEq, Repr

/-- An IPv4 address in network byte order, `struct in_addr`: the four bytes
it occupies in memory. -/
structure in_addr where
  o0 : Nat
  o1 : Nat
  o2 : Nat
  o3 : Nat
  deriving DecidableEq, Repr

/-- The bytes of a `struct in_addr`, as `memcpy` reads them. -/
def in_addr.bytes (a : in_addr) : List Nat := [a.o0, a.o1, a.o2, a.o3]

/-- The value of `sizeof(struct in_addr)`. -/
def sizeof_in_addr : Nat := 4

/-- A network interface, `struct gatekeeper_if`: the fields `main.c` reads. -/
structure gatekeeper_if where
  id : Nat
  name : String
  eth_addr : ether_addr
  arp_cache_timeout_sec : Nat
  deriving DecidableEq, Repr

/-- The network configuration, `struct net_config`. -/
structure net_config where
  front : gatekeeper_if
  back : gatekeeper_if
  back_iface_enabled : Bool
  deriving DecidableEq, Repr

/-- A pointer to one of the two interfaces of a `net_config`:
`&net->front` or `&net->back`. -/
inductive iface_ref where
  | front
  | back
  deriving DecidableEq, Repr

/-- A pointer to a cache of the LLS configuration; `&lls_conf.arp_cache` is
the only one `main.c` forms. -/
inductive cache_ref where
  | arp_cache
  | nd_cache
  deriving DecidableEq, Repr

/-- The cache descriptor, `struct lls_cache`: the fields `main.c` sets or
reads.  The member `iface_enabled` is a function pointer. -/
structure lls_cache where
  key_len : Nat
  key_str_len : Nat
  name : String
  iface_enabled : net_config → iface_ref → Bool
  front_timeout_sec : Nat
  back_timeout_sec : Nat

/-- The configuration of the block, `struct lls_config`. -/
structure lls_config where
  arp_cache : lls_cache
  net : net_config
  lcore_id : Nat
  rx_queue_front : Nat
  tx_queue_front : Nat
  rx_queue_back : Nat
  tx_queue_back : Nat

/-- The tag of a request, `enum lls_req_ty`. -/
inductive lls_req_ty where
  | LLS_REQ_HOLD
  | LLS_REQ_PUT
  deriving DecidableEq, Repr

/-- A hold, `struct lls_hold`: callback, its argument, requesting lcore. -/
structure lls_hold where
  cb : Nat
  arg : Nat
  lcore_id : Nat
  deriving DecidableEq, Repr

/-- The argument of a HOLD request, `struct lls_hold_req`. -/
structure lls_hold_req where
  cache : cache_ref
  ip_be : List Nat
  hold : lls_hold
  deriving DecidableEq, Repr

/-- The argument of a PUT request, `struct lls_put_req`. -/
structure lls_put_req where
  cache : cache_ref
  ip_be : List Nat
  lcore_id : Nat
  deriving DecidableEq, Repr

/-- What the `void *req_arg` of `lls_req` points to. -/
inductive lls_req_arg where
  | hold_req (r : lls_hold_req)
  | put_req (r : lls_put_req)
  deriving DecidableEq, Repr

/-- The functions registered with the launch framework. -/
inductive stage_fn where
  | lls_stage1
  | lls_stage2
  | lls_proc
  deriving DecidableEq, Repr

/-- The messages `main.c` logs, with their arguments. -/
inductive log_msg where
  | service_not_enabled (lcore_id : Nat) (func : String)
  | unexpected_ether_type (iface_name : String) (ether_type : Nat)
  | block_running (lcore_id : Nat)
  | block_exiting (lcore_id : Nat)
  | cannot_set_scan_timer
  | arp_cache_cannot_be_started
  deriving DecidableEq, Repr

/-- The levels of `RTE_LOG` that `main.c` uses. -/
inductive log_level where
  | ERR
  | WARNING
  | NOTICE
  deriving DecidableEq, Repr

/-- The DPDK timer types, `enum rte_timer_type`. -/
inductive rte_timer_type where
  | SINGLE
  | PERIODICAL
  deriving DecidableEq, Repr

/-- One external call made by `main.c`, with the arguments that identify it
and, where the call returns one, the value it returned. -/
inductive Event where
  | RTE_LOG (level : log_level) (msg : log_msg)
  | lls_req (ty : lls_req_ty) (arg : lls_req_arg) (ret : Int)
  | rte_eth_rx_burst (port : Nat) (rx_queue : Nat) (num_rx : Nat)
  | process_arp (iface_id : Nat) (tx_queue : Nat) (buf : rte_mbuf) (ret : Int)
  | rte_pktmbuf_free (buf : rte_mbuf)
  | lls_process_reqs (ret : Int)
  | rte_timer_manage
  | lls_cache_scan (cache : cache_ref)
  | lls_cache_destroy (cache : cache_ref)
  | destroy_mailbox
  | rte_timer_stop
  | net_launch_at_stage1 (front_rx front_tx back_rx back_tx : Nat) (f : stage_fn) (ret : Int)
  | launch_at_stage2 (f : stage_fn) (ret : Int)
  | launch_at_stage3 (name : String) (f : stage_fn) (lcore_id : Nat) (ret : Int)
  | rte_timer_init
  | rte_timer_reset (ticks : Nat) (type : rte_timer_type) (lcore_id : Nat) (ret : Int)
  | init_mailbox (name : String) (ret : Int)
  | lls_cache_init (cache : cache_ref) (ret : Int)
  | pop_n_at_stage1 (n : Nat)
  | pop_n_at_stage2 (n : Nat)
  | pop_n_at_stage3 (n : Nat)
  deriving DecidableEq, Repr

/-- Everything `main.c` uses and does not define: the constants of the
headers and the external functions, each a function of the world `W`. -/
structure Externals (W : Type) where
  /-- The burst size passed to `rte_eth_rx_burst`. -/
  GATEKEEPER_MAX_PKT_BURST : Nat
  /-- The EtherType of ARP, in host byte order. -/
  ETHER_TYPE_ARP : Nat
  /-- The capacity passed to `init_mailbox`. -/
  MAILBOX_MAX_ENTRIES : Nat
  /-- The value of `sizeof(struct lls_request)`. -/
  sizeof_lls_request : Nat
  /-- The number of bytes of the member `ip_be` of a request. -/
  sizeof_ip_be : Nat
  lls_req : lls_req_ty → lls_req_arg → W → Int × W
  rte_eth_rx_burst : Nat → Nat → Nat → W → List rte_mbuf × W
  process_arp : lls_config → gatekeeper_if → Nat → rte_mbuf → W → Int × W
  rte_pktmbuf_free : rte_mbuf → W → W
  lls_process_reqs : lls_config → W → Int × W
  /-- Runs the timer list; `true` when the scan timer has expired, in which
  case its callback `lls_scan` is run. -/
  rte_timer_manage : W → Bool × W
  lls_cache_scan : lls_config → cache_ref → W → W
  lls_cache_destroy : cache_ref → W → W
  destroy_mailbox : W → W
  rte_timer_stop : W → W
  net_launch_at_stage1 : net_config → Nat → Nat → Nat → Nat → stage_fn → lls_config → W → Int × W
  launch_at_stage2 : stage_fn → lls_config → W → Int × W
  launch_at_stage3 : String → stage_fn → lls_config → Nat → W → Int × W
  rte_timer_init : W → W
  rte_get_timer_hz : W → Nat
  rte_timer_reset : Nat → rte_timer_type → Nat → W → Int × W
  init_mailbox : String → Nat → Nat → Nat → W → Int × W
  lls_cache_init : lls_config → cache_ref → W → Int × W
  pop_n_at_stage1 : Nat → W → W
  pop_n_at_stage2 : Nat → W → W
  pop_n_at_stage3 : Nat → W → W

/-- The result of a C function with effects: return value, world after the
call, and the external calls made, in order. -/
structure Outcome (W : Type) (α : Type) where
  ret : α
  world : W
  events : List Event

/-! ## Library functions with a fixed meaning -/

/-- Length of time (in seconds) to wait between scans of the cache. -/
def LLS_CACHE_SCAN_INTERVAL : Nat := 10

/-- The C call `memcpy(dst, src, n)`: the first `n` bytes of `dst` are
replaced by the first `n` bytes of `src`. -/
def memcpy (dst src : List Nat) (n : Nat) : List Nat :=
  src.take n ++ dst.drop n

/-- DPDK `is_broadcast_ether_addr`: all six bytes are `0xFF`. -/
def is_broadcast_ether_addr (ea : ether_addr) : Bool :=
  ea.addr_bytes == List.replicate 6 0xFF

/-- DPDK `is_same_ether_addr`: the two addresses have the same bytes. -/
def is_same_ether_addr (ea1 ea2 : ether_addr) : Bool :=
  ea1.addr_bytes == ea2.addr_bytes

/-- DPDK `rte_be_to_cpu_16`: the number whose big-endian representation is
the two bytes stored. -/
def rte_be_to_cpu_16 (x : be16) : Nat :=
  (x.hi % 256) * 256 + x.lo % 256

/-! ## The functions of `main.c` -/

section Code

variable {W : Type}

/-- Embeds `arp_enabled` (main.c 46-53). -/
def arp_enabled (lls_conf : lls_config) : Bool :=
  lls_conf.arp_cache.iface_enabled lls_conf.net iface_ref.front ||
    lls_conf.arp_cache.iface_enabled lls_conf.net iface_ref.back

/-- Embeds `cleanup_lls` (main.c 61-70), on the file-scope `lls_conf`. -/
def cleanup_lls (X : Externals W) (lls_conf : lls_config) (w : W) : Outcome W Int :=
  let (w1, e1) :=
    if arp_enabled lls_conf then
      (X.lls_cache_destroy cache_ref.arp_cache w, [Event.lls_cache_destroy cache_ref.arp_cache])
    else (w, [])
  let w2 := X.destroy_mailbox w1
  let w3 := X.rte_timer_stop w2
  { ret := 0, world := w3, events := e1 ++ [Event.destroy_mailbox, Event.rte_timer_stop] }

/-- Embeds `hold_arp` (main.c 72-92), on the file-scope `lls_conf`. -/
def hold_arp (X : Externals W) (lls_conf : lls_config)
    (cb : Nat) (arg : Nat) (ip_be : in_addr) (lcore_id : Nat) (w : W) : Outcome W Int :=
  if arp_enabled lls_conf then
    let hold_req : lls_hold_req :=
      { cache := cache_ref.arp_cache,
        ip_be := List.replicate X.sizeof_ip_be 0,
        hold := { cb := cb, arg := arg, lcore_id := lcore_id } }
    let hold_req := { hold_req with ip_be := memcpy hold_req.ip_be ip_be.bytes sizeof_in_addr }
    let r := X.lls_req lls_req_ty.LLS_REQ_HOLD (lls_req_arg.hold_req hold_req) w
    { ret := r.1, world := r.2,
      events := [Event.lls_req lls_req_ty.LLS_REQ_HOLD (lls_req_arg.hold_req hold_req) r.1] }
  else
    { ret := -1, world := w,
      events := [Event.RTE_LOG log_level.WARNING (log_msg.service_not_enabled lcore_id "hold_arp")] }

/-- Embeds `put_arp` (main.c 94-110), on the file-scope `lls_conf`. -/
def put_arp (X : Externals W) (lls_conf : lls_config)
    (ip_be : in_addr) (lcore_id : Nat) (w : W) : Outcome W Int :=
  if arp_enabled lls_conf then
    let put_req : lls_put_req :=
      { cache := cache_ref.arp_cache,
        ip_be := List.replicate X.sizeof_ip_be 0,
        lcore_id := lcore_id }
    let put_req := { put_req with ip_be := memcpy put_req.ip_be ip_be.bytes sizeof_in_addr }
    let r := X.lls_req lls_req_ty.LLS_REQ_PUT (lls_req_arg.put_req put_req) w
    { ret := r.1, world := r.2,
      events := [Event.lls_req lls_req_ty.LLS_REQ_PUT (lls_req_arg.put_req put_req) r.1] }
  else
    { ret := -1, world := w,
      events := [Event.RTE_LOG log_level.WARNING (log_msg.service_not_enabled lcore_id "put_arp")] }

/-- Embeds `lls_scan` (main.c 112-119), the callback of the scan timer. -/
def lls_scan (X : Externals W) (lls_conf : lls_config) (w : W) : Outcome W Unit :=
  if arp_enabled lls_conf then
    { ret := (), world := X.lls_cache_scan lls_conf cache_ref.arp_cache w,
      events := [Event.lls_cache_scan cache_ref.arp_cache] }
  else
    { ret := (), world := w, events := [] }

/-- The body of the `for` loop of `process_pkts` (main.c 130-164), for the
buffer `buf = bufs[i]`. -/
def process_pkts_body (X : Externals W) (lls_conf : lls_config) (iface : gatekeeper_if)
    (tx_queue : Nat) (buf : rte_mbuf) (w : W) : Outcome W Unit :=
  let eth_hdr := buf.eth_hdr
  if !is_broadcast_ether_addr eth_hdr.d_addr &&
      !is_same_ether_addr eth_hdr.d_addr iface.eth_addr then
    -- goto free_buf
    { ret := (), world := X.rte_pktmbuf_free buf w, events := [Event.rte_pktmbuf_free buf] }
  else if rte_be_to_cpu_16 eth_hdr.ether_type = X.ETHER_TYPE_ARP then
    let r := X.process_arp lls_conf iface tx_queue buf w
    if r.1 = -1 then
      -- goto free_buf
      { ret := (), world := X.rte_pktmbuf_free buf r.2,
        events := [Event.process_arp iface.id tx_queue buf r.1, Event.rte_pktmbuf_free buf] }
    else
      -- ARP reply was sent, so no free is needed: continue
      { ret := (), world := r.2, events := [Event.process_arp iface.id tx_queue buf r.1] }
  else
    -- default: log, goto free_buf
    { ret := (), world := X.rte_pktmbuf_free buf w,
      events := [Event.RTE_LOG log_level.ERR
          (log_msg.unexpected_ether_type iface.name (rte_be_to_cpu_16 eth_hdr.ether_type)),
        Event.rte_pktmbuf_free buf] }

/-- The `for` loop of `process_pkts` (main.c 130-164) over the buffers
`bufs[0], ..., bufs[num_rx - 1]` of the burst. -/
def process_pkts_loop (X : Externals W) (lls_conf : lls_config) (iface : gatekeeper_if)
    (tx_queue : Nat) : List rte_mbuf → W → Outcome W Unit
  | [], w => { ret := (), world := w, events := [] }
  | buf :: bufs, w =>
    let o := process_pkts_body X lls_conf iface tx_queue buf w
    let rest := process_pkts_loop X lls_conf iface tx_queue bufs o.world
    { ret := (), world := rest.world, events := o.events ++ rest.events }

/-- Embeds `process_pkts` (main.c 121-165).  The external `rte_eth_rx_burst`
returns the buffers received; `num_rx` is their number. -/
def process_pkts (X : Externals W) (lls_conf : lls_config) (iface : gatekeeper_if)
    (rx_queue tx_queue : Nat) (w : W) : Outcome W Unit :=
  let rx := X.rte_eth_rx_burst iface.id rx_queue X.GATEKEEPER_MAX_PKT_BURST w
  let bufs := rx.1
  let num_rx := bufs.length
  let o := process_pkts_loop X lls_conf iface tx_queue bufs rx.2
  { ret := (), world := o.world,
    events := Event.rte_eth_rx_burst iface.id rx_queue num_rx :: o.events }

/-- DPDK `rte_timer_manage` as `lls_proc` uses it: the one timer of the
block is the scan timer that `run_lls` sets, with callback `lls_scan` and
argument `lls_conf`; the callback runs when the timer has expired. -/
def rte_timer_manage (X : Externals W) (lls_conf : lls_config) (w : W) : Outcome W Unit :=
  let r := X.rte_timer_manage w
  if r.1 then
    let o := lls_scan X lls_conf r.2
    { ret := (), world := o.world, events := Event.rte_timer_manage :: o.events }
  else
    { ret := (), world := r.2, events := [Event.rte_timer_manage] }

/-- One pass through the body of the `while` loop of `lls_proc`
(main.c 177-200). -/
def lls_proc_iteration (X : Externals W) (lls_conf : lls_config) (w : W) : Outcome W Unit :=
  let net_conf := lls_conf.net
  -- Read in packets on front and back interfaces.
  let o1 := process_pkts X lls_conf net_conf.front
    lls_conf.rx_queue_front lls_conf.tx_queue_front w
  let o2 : Outcome W Unit :=
    if net_conf.back_iface_enabled then
      process_pkts X lls_conf net_conf.back
        lls_conf.rx_queue_back lls_conf.tx_queue_back o1.world
    else { ret := (), world := o1.world, events := [] }
  -- Process any requests.
  let r := X.lls_process_reqs lls_conf o2.world
  let o3 : Outcome W Unit :=
    if r.1 = 0 then rte_timer_manage X lls_conf r.2
    else { ret := (), world := r.2, events := [] }
  { ret := (), world := o3.world,
    events := o1.events ++ o2.events ++ Event.lls_process_reqs r.1 :: o3.events }

/-- The `while (likely(!exiting))` loop of `lls_proc` (main.c 177-200), for a
run in which the flag `exiting` is read as false `iters` times and then as
true.  Returns the final world and the events of each iteration. -/
def lls_proc_loop (X : Externals W) (lls_conf : lls_config) : Nat → W → W × List (List Event)
  | 0, w => (w, [])
  | iters + 1, w =>
    let o := lls_proc_iteration X lls_conf w
    let rest := lls_proc_loop X lls_conf iters o.world
    (rest.1, o.events :: rest.2)

/-- Embeds `lls_proc` (main.c 167-207).  The argument is the file-scope
`lls_conf`, on which `cleanup_lls` works. -/
def lls_proc (X : Externals W) (lls_conf : lls_config) (iters : Nat) (w : W) : Outcome W Int :=
  let l := lls_proc_loop X lls_conf iters w
  let c := cleanup_lls X lls_conf l.1
  { ret := c.ret, world := c.world,
    events := Event.RTE_LOG log_level.NOTICE (log_msg.block_running lls_conf.lcore_id) ::
      l.2.flatten ++
      Event.RTE_LOG log_level.NOTICE (log_msg.block_exiting lls_conf.lcore_id) :: c.events }

/-! ### `run_lls` and its chain of labels

Each label of the rollback chain of `run_lls` is a function that performs the
statement at the label and falls through to the next label. -/

/-- Label `out:` of `run_lls` (main.c 355-356). -/
def run_lls_out (_X : Externals W) (w : W) : W × List Event :=
  (w, [])

/-- Label `stage1:` of `run_lls` (main.c 353-354). -/
def run_lls_stage1 (X : Externals W) (w : W) : W × List Event :=
  let r := run_lls_out X (X.pop_n_at_stage1 1 w)
  (r.1, Event.pop_n_at_stage1 1 :: r.2)

/-- Label `stage2:` of `run_lls` (main.c 351-352). -/
def run_lls_stage2 (X : Externals W) (w : W) : W × List Event :=
  let r := run_lls_stage1 X (X.pop_n_at_stage2 1 w)
  (r.1, Event.pop_n_at_stage2 1 :: r.2)

/-- Label `stage3:` of `run_lls` (main.c 349-350). -/
def run_lls_stage3 (X : Externals W) (w : W) : W × List Event :=
  let r := run_lls_stage2 X (X.pop_n_at_stage3 1 w)
  (r.1, Event.pop_n_at_stage3 1 :: r.2)

/-- Label `timer:` of `run_lls` (main.c 347-348). -/
def run_lls_timer (X : Externals W) (w : W) : W × List Event :=
  let r := run_lls_stage3 X (X.rte_timer_stop w)
  (r.1, Event.rte_timer_stop :: r.2)

/-- Label `requests:` of `run_lls` (main.c 345-346). -/
def run_lls_requests (X : Externals W) (w : W) : W × List Event :=
  let r := run_lls_timer X (X.destroy_mailbox w)
  (r.1, Event.destroy_mailbox :: r.2)

/-- The result of `run_lls`: the outcome and the `*lls_conf` it leaves. -/
structure RunLls (W : Type) where
  out : Outcome W Int
  lls_conf : Option lls_config

/-- The end of a failing run of `run_lls`: the events `evs` made so far are
followed by those of the label jumped to, and `ret` is returned. -/
def run_lls_fail (ret : Int) (evs : List Event) (unwind : W × List Event)
    (lls_conf : lls_config) : RunLls W :=
  { out := { ret := ret, world := unwind.1, events := evs ++ unwind.2 },
    lls_conf := some lls_conf }

/-- Embeds `run_lls` (main.c 278-357).  A `NULL` argument is `none`. -/
def run_lls (X : Externals W) (net_conf : Option net_config) (lls_conf : Option lls_config)
    (w : W) : RunLls W :=
  match net_conf, lls_conf with
  | some net_conf, some lls_conf =>
    let r1 := X.net_launch_at_stage1 net_conf 1 1 1 1 stage_fn.lls_stage1 lls_conf w
    let e1 := [Event.net_launch_at_stage1 1 1 1 1 stage_fn.lls_stage1 r1.1]
    if r1.1 < 0 then run_lls_fail r1.1 e1 (run_lls_out X r1.2) lls_conf else
    let r2 := X.launch_at_stage2 stage_fn.lls_stage2 lls_conf r1.2
    let e2 := e1 ++ [Event.launch_at_stage2 stage_fn.lls_stage2 r2.1]
    if r2.1 < 0 then run_lls_fail r2.1 e2 (run_lls_stage1 X r2.2) lls_conf else
    let r3 := X.launch_at_stage3 "lls" stage_fn.lls_proc lls_conf lls_conf.lcore_id r2.2
    let e3 := e2 ++ [Event.launch_at_stage3 "lls" stage_fn.lls_proc lls_conf.lcore_id r3.1]
    if r3.1 < 0 then run_lls_fail r3.1 e3 (run_lls_stage2 X r3.2) lls_conf else
    -- Do LLS cache scan every LLS_CACHE_SCAN_INTERVAL seconds.
    let w4 := X.rte_timer_init r3.2
    let ticks := (LLS_CACHE_SCAN_INTERVAL * X.rte_get_timer_hz w4) % 2 ^ 64
    let r4 := X.rte_timer_reset ticks rte_timer_type.PERIODICAL lls_conf.lcore_id w4
    let e4 := e3 ++ [Event.rte_timer_init,
      Event.rte_timer_reset ticks rte_timer_type.PERIODICAL lls_conf.lcore_id r4.1]
    if r4.1 < 0 then
      run_lls_fail r4.1 (e4 ++ [Event.RTE_LOG log_level.ERR log_msg.cannot_set_scan_timer])
        (run_lls_stage3 X r4.2) lls_conf
    else
    let r5 := X.init_mailbox "lls_req" X.MAILBOX_MAX_ENTRIES X.sizeof_lls_request
      lls_conf.lcore_id r4.2
    let e5 := e4 ++ [Event.init_mailbox "lls_req" r5.1]
    if r5.1 < 0 then run_lls_fail r5.1 e5 (run_lls_timer X r5.2) lls_conf else
    let lls_conf := { lls_conf with net := net_conf }
    if arp_enabled lls_conf then
      let r6 := X.lls_cache_init lls_conf cache_ref.arp_cache r5.2
      let e6 := e5 ++ [Event.lls_cache_init cache_ref.arp_cache r6.1]
      if r6.1 < 0 then
        run_lls_fail r6.1
          (e6 ++ [Event.RTE_LOG log_level.ERR log_msg.arp_cache_cannot_be_started])
          (run_lls_requests X r6.2) lls_conf
      else
      -- Set timeouts for front and back (if needed).
      let lls_conf :=
        if lls_conf.arp_cache.iface_enabled net_conf iface_ref.front then
          { lls_conf with arp_cache :=
              { lls_conf.arp_cache with
                front_timeout_sec := net_conf.front.arp_cache_timeout_sec } }
        else lls_conf
      let lls_conf :=
        if lls_conf.arp_cache.iface_enabled net_conf iface_ref.back then
          { lls_conf with arp_cache :=
              { lls_conf.arp_cache with
                back_timeout_sec := lls_conf.net.back.arp_cache_timeout_sec } }
        else lls_conf
      { out := { ret := 0, world := r6.2, events := e6 }, lls_conf := some lls_conf }
    else
      { out := { ret := 0, world := r5.2, events := e5 }, lls_conf := some lls_conf }
  | _, _ =>
    { out := { ret := -1, world := w, events := [] }, lls_conf := lls_conf }

end Code

/-! ## Set-up steps and their undo actions -/

/-- The steps of `run_lls` that can fail, in the order `run_lls` takes them. -/
inductive setup_step where
  | stage1
  | stage2
  | stage3
  | scan_timer
  | mailbox
  | arp_cache
  deriving DecidableEq, Repr

/-- The step that an event attempts, with the code the call returned. -/
def attempt : Event → Option (setup_step × Int)
  | Event.net_launch_at_stage1 _ _ _ _ _ ret => some (setup_step.stage1, ret)
  | Event.launch_at_stage2 _ ret => some (setup_step.stage2, ret)
  | Event.launch_at_stage3 _ _ _ ret => some (setup_step.stage3, ret)
  | Event.rte_timer_reset _ _ _ ret => some (setup_step.scan_timer, ret)
  | Event.init_mailbox _ ret => some (setup_step.mailbox, ret)
  | Event.lls_cache_init _ ret => some (setup_step.arp_cache, ret)
  | _ => none

/-- The steps that succeeded in a trace (their call returned a code that is
not negative), in the order in which they succeeded. -/
def succeeded (evs : List Event) : List setup_step :=
  evs.filterMap fun e =>
    match attempt e with
    | some (s, ret) => if ret < 0 then none else some s
    | none => none

/-- The undo action of a step. -/
def undo : setup_step → Event
  | setup_step.stage1 => Event.pop_n_at_stage1 1
  | setup_step.stage2 => Event.pop_n_at_stage2 1
  | setup_step.stage3 => Event.pop_n_at_stage3 1
  | setup_step.scan_timer => Event.rte_timer_stop
  | setup_step.mailbox => Event.destroy_mailbox
  | setup_step.arp_cache => Event.lls_cache_destroy cache_ref.arp_cache

/-- Follows the specification, not the code: the undo actions of the given
steps, each once, in the reverse of the order of the steps. -/
def rollback (steps : List setup_step) : List Event :=
  steps.reverse.map undo

/-- The step acquires one of the three resources that `cleanup_lls` releases:
the scan timer, the mailbox, the ARP cache. -/
def is_resource : setup_step → Bool
  | setup_step.scan_timer => true
  | setup_step.mailbox => true
  | setup_step.arp_cache => true
  | _ => false

/-! ## A concrete configuration, for evaluating the definitions -/

/-- An Ethernet address used in the examples: `02:00:00:00:00:0n`. -/
def sample_mac (n : Nat) : ether_addr := { addr_bytes := [2, 0, 0, 0, 0, n] }

/-- The broadcast address `ff:ff:ff:ff:ff:ff`. -/
def broadcast_mac : ether_addr := { addr_bytes := [255, 255, 255, 255, 255, 255] }

/-- A network configuration with both interfaces present. -/
def sample_net : net_config :=
  { front := { id := 0, name := "front", eth_addr := sample_mac 1, arp_cache_timeout_sec := 7200 },
    back := { id := 1, name := "back", eth_addr := sample_mac 2, arp_cache_timeout_sec := 3600 },
    back_iface_enabled := true }

/-- An LLS configuration whose ARP service is enabled on the interfaces
selected by `sel`. -/
def sample_conf (sel : iface_ref → Bool) : lls_config :=
  { arp_cache :=
      { key_len := 4, key_str_len := 16, name := "arp",
        iface_enabled := fun _ i => sel i,
        front_timeout_sec := 0, back_timeout_sec := 0 },
    net := sample_net, lcore_id := 2,
    rx_queue_front := 0, tx_queue_front := 0, rx_queue_back := 0, tx_queue_back := 0 }

/-- ARP enabled on the front interface only. -/
def front_only : iface_ref → Bool
  | iface_ref.front => true
  | iface_ref.back => false

/-- ARP enabled on no interface. -/
def no_iface : iface_ref → Bool := fun _ => false

/-- Externals over a world that counts the requests held by the mailbox: the
mailbox has room for `MAILBOX_MAX_ENTRIES = 2` requests, the ARP handler
consumes the buffers with an even address and fails on the others, and every
set-up call returns the code that `codes` gives for it. -/
def sample_ext (codes : setup_step → Int) (burst : List rte_mbuf) : Externals Nat :=
  { GATEKEEPER_MAX_PKT_BURST := 32,
    ETHER_TYPE_ARP := 0x0806,
    MAILBOX_MAX_ENTRIES := 2,
    sizeof_lls_request := 64,
    sizeof_ip_be := 16,
    lls_req := fun _ _ w => if w < 2 then (0, w + 1) else (-1, w),
    rte_eth_rx_burst := fun _ _ _ w => (burst, w),
    process_arp := fun _ _ _ buf w => (if buf.addr % 2 = 0 then 0 else -1, w),
    rte_pktmbuf_free := fun _ w => w,
    lls_process_reqs := fun _ w => (w, 0),
    rte_timer_manage := fun w => (true, w),
    lls_cache_scan := fun _ _ w => w,
    lls_cache_destroy := fun _ w => w,
    destroy_mailbox := fun _ => 0,
    rte_timer_stop := fun w => w,
    net_launch_at_stage1 := fun _ _ _ _ _ _ _ w => (codes setup_step.stage1, w),
    launch_at_stage2 := fun _ _ w => (codes setup_step.stage2, w),
    launch_at_stage3 := fun _ _ _ _ w => (codes setup_step.stage3, w),
    rte_timer_init := fun w => w,
    rte_get_timer_hz := fun _ => 1000,
    rte_timer_reset := fun _ _ _ w => (codes setup_step.scan_timer, w),
    init_mailbox := fun _ _ _ _ w => (codes setup_step.mailbox, w),
    lls_cache_init := fun _ _ w => (codes setup_step.arp_cache, w),
    pop_n_at_stage1 := fun _ w => w,
    pop_n_at_stage2 := fun _ w => w,
    pop_n_at_stage3 := fun _ w => w }

/-- Every set-up call succeeds. -/
def all_ok : setup_step → Int := fun _ => 0

/-- The key `10.0.0.1`. -/
def sample_key : in_addr := { o0 := 10, o1 := 0, o2 := 0, o3 := 1 }

/-- The EtherType of ARP, `0x0806`, as it is stored in a frame. -/
def arp_type : be16 := { hi := 0x08, lo := 0x06 }

/-- The EtherType of IPv4, `0x0800`, as it is stored in a frame. -/
def ipv4_type : be16 := { hi := 0x08, lo := 0x00 }

/-- A buffer at address `addr` holding a frame for `dst` with EtherType `ty`. -/
def sample_frame (addr : Nat) (dst : ether_addr) (ty : be16) : rte_mbuf :=
  { addr := addr, eth_hdr := { d_addr := dst, s_addr := sample_mac 7, ether_type := ty } }

/-- A burst received on the front interface: a broadcast ARP frame that the
handler keeps, an ARP frame for the interface on which the handler fails, an
ARP frame for another station, and a broadcast IPv4 frame. -/
def sample_burst : List rte_mbuf :=
  [sample_frame 100 broadcast_mac arp_type,
   sample_frame 101 (sample_mac 1) arp_type,
   sample_frame 102 (sample_mac 9) arp_type,
   sample_frame 103 broadcast_mac ipv4_type]

/-! ## Observations on a trace -/

/-- The event concerns the buffer `b`: it hands `b` to the ARP handler or it
frees `b`. -/
def about (b : rte_mbuf) : Event → Bool
  | Event.process_arp _ _ buf _ => buf = b
  | Event.rte_pktmbuf_free buf => buf = b
  | _ => false

/-- The event is a call of the ARP handler on `b` that did not return -1:
the handler kept the buffer. -/
def consumes (b : rte_mbuf) : Event → Bool
  | Event.process_arp _ _ buf ret => buf = b && ret != -1
  | _ => false

/-- How many times the trace frees the buffer `b`. -/
def released (b : rte_mbuf) (evs : List Event) : Nat :=
  evs.count (Event.rte_pktmbuf_free b)

/-- How many times the ARP handler kept the buffer `b` in the trace. -/
def consumed (b : rte_mbuf) (evs : List Event) : Nat :=
  evs.countP (consumes b)

/-- The destination check of `process_pkts` (main.c 143-144) fails for the
frame: its destination is neither broadcast nor the address of `iface`. -/
def foreign_dst (iface : gatekeeper_if) (b : rte_mbuf) : Bool :=
  !is_broadcast_ether_addr b.eth_hdr.d_addr &&
    !is_same_ether_addr b.eth_hdr.d_addr iface.eth_addr

/-- The event is one that the packet loop makes: a receive, a call of the
handler, a release, or a log entry. -/
def is_pkt_event : Event → Bool
  | Event.rte_eth_rx_burst _ _ _ => true
  | Event.process_arp _ _ _ _ => true
  | Event.rte_pktmbuf_free _ => true
  | Event.RTE_LOG _ _ => true
  | _ => false

/-- The LLS configuration that `run_lls` leaves when it starts the block on
`sample_net` with ARP on the front interface only: the time-out of the front
interface is set. -/
def sample_started : lls_config :=
  { arp_cache :=
      { key_len := 4, key_str_len := 16, name := "arp",
        iface_enabled := fun _ i => front_only i,
        front_timeout_sec := 7200, back_timeout_sec := 0 },
    net := sample_net, lcore_id := 2,
    rx_queue_front := 0, tx_queue_front := 0, rx_queue_back := 0, tx_queue_back := 0 }

/-! ## Requests: `hold_arp` and `put_arp` -/

section Requests

variable {W : Type}

theorem memcpy_in_addr (n : Nat) (k : in_addr) :
    memcpy (List.replicate n 0) k.bytes sizeof_in_addr = k.bytes ++ List.replicate (n - 4) 0 := by
  simp [memcpy, in_addr.bytes, sizeof_in_addr]

theorem arp_enabled_eq_false (lls_conf : lls_config)
    (hf : lls_conf.arp_cache.iface_enabled lls_conf.net iface_ref.front = false)
    (hb : lls_conf.arp_cache.iface_enabled lls_conf.net iface_ref.back = false) :
    arp_enabled lls_conf = false := by
  simp [arp_enabled, hf, hb]

theorem arp_enabled_eq_true (lls_conf : lls_config)
    (h : lls_conf.arp_cache.iface_enabled lls_conf.net iface_ref.front = true ∨
      lls_conf.arp_cache.iface_enabled lls_conf.net iface_ref.back = true) :
    arp_enabled lls_conf = true := by
  simpa [arp_enabled] using h

/-- C1: when ARP is enabled on neither the front nor the back interface,
`hold_arp` and `put_arp` both return -1, make no call of `lls_req` (their only
external call is the warning they log) and leave the world, hence the mailbox
and the cache, as it was. -/
theorem requests_refused_when_arp_disabled (X : Externals W) (lls_conf : lls_config)
    (cb arg : Nat) (ip_be : in_addr) (lcore_id : Nat) (w : W)
    (hf : lls_conf.arp_cache.iface_enabled lls_conf.net iface_ref.front = false)
    (hb : lls_conf.arp_cache.iface_enabled lls_conf.net iface_ref.back = false) :
    ((hold_arp X lls_conf cb arg ip_be lcore_id w).ret = -1 ∧
      (hold_arp X lls_conf cb arg ip_be lcore_id w).world = w ∧
      (hold_arp X lls_conf cb arg ip_be lcore_id w).events =
        [Event.RTE_LOG log_level.WARNING (log_msg.service_not_enabled lcore_id "hold_arp")] ∧
      ∀ ty a r, Event.lls_req ty a r ∉ (hold_arp X lls_conf cb arg ip_be lcore_id w).events) ∧
    ((put_arp X lls_conf ip_be lcore_id w).ret = -1 ∧
      (put_arp X lls_conf ip_be lcore_id w).world = w ∧
      (put_arp X lls_conf ip_be lcore_id w).events =
        [Event.RTE_LOG log_level.WARNING (log_msg.service_not_enabled lcore_id "put_arp")] ∧
      ∀ ty a r, Event.lls_req ty a r ∉ (put_arp X lls_conf ip_be lcore_id w).events) := by
  have h := arp_enabled_eq_false lls_conf hf hb
  simp [hold_arp, put_arp, h]

/-- C1, evaluated: with ARP enabled on no interface, a hold and a put for
`10.0.0.1` from lcore 5 are refused. -/
theorem requests_refused_when_arp_disabled_witness :
    ((sample_conf no_iface).arp_cache.iface_enabled (sample_conf no_iface).net
        iface_ref.front = false ∧
      (sample_conf no_iface).arp_cache.iface_enabled (sample_conf no_iface).net
        iface_ref.back = false) ∧
    (hold_arp (sample_ext all_ok []) (sample_conf no_iface) 77 88 sample_key 5 0).ret = -1 ∧
    (put_arp (sample_ext all_ok []) (sample_conf no_iface) sample_key 5 0).ret = -1 ∧
    (∀ ty a r, Event.lls_req ty a r ∉
      (hold_arp (sample_ext all_ok []) (sample_conf no_iface) 77 88 sample_key 5 0).events) :=
  have h := requests_refused_when_arp_disabled (sample_ext all_ok []) (sample_conf no_iface)
    77 88 sample_key 5 0 rfl rfl
  ⟨⟨rfl, rfl⟩, h.1.1, h.2.1, h.1.2.2.2⟩

/-- C2: when ARP is enabled on the front or the back interface, `hold_arp`
makes exactly one external call, `lls_req` with the tag HOLD, on a request
whose cache is the ARP cache, whose hold is `cb`, `arg`, `lcore_id` and whose
`ip_be` starts with the four key bytes (the rest is zero); `hold_arp` returns
what `lls_req` returned, so a negative result of the mailbox is returned as
it is. -/
theorem hold_arp_submits_one_hold (X : Externals W) (lls_conf : lls_config)
    (cb arg : Nat) (ip_be : in_addr) (lcore_id : Nat) (w : W)
    (h : lls_conf.arp_cache.iface_enabled lls_conf.net iface_ref.front = true ∨
      lls_conf.arp_cache.iface_enabled lls_conf.net iface_ref.back = true) :
    ∃ req : lls_hold_req,
      req.cache = cache_ref.arp_cache ∧
      req.hold = { cb := cb, arg := arg, lcore_id := lcore_id } ∧
      req.ip_be = ip_be.bytes ++ List.replicate (X.sizeof_ip_be - 4) 0 ∧
      req.ip_be.take 4 = [ip_be.o0, ip_be.o1, ip_be.o2, ip_be.o3] ∧
      (hold_arp X lls_conf cb arg ip_be lcore_id w).events =
        [Event.lls_req lls_req_ty.LLS_REQ_HOLD (lls_req_arg.hold_req req)
          (X.lls_req lls_req_ty.LLS_REQ_HOLD (lls_req_arg.hold_req req) w).1] ∧
      (hold_arp X lls_conf cb arg ip_be lcore_id w).ret =
        (X.lls_req lls_req_ty.LLS_REQ_HOLD (lls_req_arg.hold_req req) w).1 ∧
      (hold_arp X lls_conf cb arg ip_be lcore_id w).world =
        (X.lls_req lls_req_ty.LLS_REQ_HOLD (lls_req_arg.hold_req req) w).2 ∧
      ((X.lls_req lls_req_ty.LLS_REQ_HOLD (lls_req_arg.hold_req req) w).1 < 0 →
        (hold_arp X lls_conf cb arg ip_be lcore_id w).ret < 0) := by
  have he := arp_enabled_eq_true lls_conf h
  refine ⟨{ cache := cache_ref.arp_cache,
            ip_be := ip_be.bytes ++ List.replicate (X.sizeof_ip_be - 4) 0,
            hold := { cb := cb, arg := arg, lcore_id := lcore_id } }, rfl, rfl, rfl, ?_, ?_⟩
  · simp [in_addr.bytes]
  · simp [hold_arp, he, memcpy_in_addr]

/-- C2, evaluated: with ARP on the front interface and a mailbox that is
full (it holds 2 requests), the hold is submitted once and the -1 of the
mailbox is what `hold_arp` returns. -/
theorem hold_arp_submits_one_hold_witness :
    ((sample_conf front_only).arp_cache.iface_enabled (sample_conf front_only).net
        iface_ref.front = true ∨
      (sample_conf front_only).arp_cache.iface_enabled (sample_conf front_only).net
        iface_ref.back = true) ∧
    (hold_arp (sample_ext all_ok []) (sample_conf front_only) 77 88 sample_key 5 2).ret = -1 ∧
    (hold_arp (sample_ext all_ok []) (sample_conf front_only) 77 88 sample_key 5 2).events =
      [Event.lls_req lls_req_ty.LLS_REQ_HOLD
        (lls_req_arg.hold_req
          { cache := cache_ref.arp_cache,
            ip_be := [10, 0, 0, 1, 0, 0, 0, 0, 0, 0, 0, 0, 0, 0, 0, 0],
            hold := { cb := 77, arg := 88, lcore_id := 5 } }) (-1)] := by
  obtain ⟨req, _, _, hip, _, hev, hret, _, _⟩ :=
    hold_arp_submits_one_hold (sample_ext all_ok []) (sample_conf front_only)
      77 88 sample_key 5 2 (Or.inl rfl)
  exact ⟨Or.inl rfl, by rw [hret]; rfl, by rfl⟩

/-- C7 as the code has it: when ARP is enabled on the front or the back
interface, `put_arp` makes exactly one external call, `lls_req` with the tag
PUT, on a request whose cache is the ARP cache, whose `lcore_id` is that of
the caller and whose `ip_be` starts with the four key bytes (the rest is
zero); the request has no other member that the caller sets, and `put_arp`
returns what `lls_req` returned. -/
theorem put_arp_submits_one_put (X : Externals W) (lls_conf : lls_config)
    (ip_be : in_addr) (lcore_id : Nat) (w : W)
    (h : lls_conf.arp_cache.iface_enabled lls_conf.net iface_ref.front = true ∨
      lls_conf.arp_cache.iface_enabled lls_conf.net iface_ref.back = true) :
    (put_arp X lls_conf ip_be lcore_id w).events =
      [Event.lls_req lls_req_ty.LLS_REQ_PUT
        (lls_req_arg.put_req
          { cache := cache_ref.arp_cache,
            ip_be := ip_be.bytes ++ List.replicate (X.sizeof_ip_be - 4) 0,
            lcore_id := lcore_id })
        (put_arp X lls_conf ip_be lcore_id w).ret] ∧
    (ip_be.bytes ++ List.replicate (X.sizeof_ip_be - 4) 0).take 4 =
      [ip_be.o0, ip_be.o1, ip_be.o2, ip_be.o3] ∧
    (put_arp X lls_conf ip_be lcore_id w).ret =
      (X.lls_req lls_req_ty.LLS_REQ_PUT
        (lls_req_arg.put_req
          { cache := cache_ref.arp_cache,
            ip_be := ip_be.bytes ++ List.replicate (X.sizeof_ip_be - 4) 0,
            lcore_id := lcore_id }) w).1 ∧
    (put_arp X lls_conf ip_be lcore_id w).world =
      (X.lls_req lls_req_ty.LLS_REQ_PUT
        (lls_req_arg.put_req
          { cache := cache_ref.arp_cache,
            ip_be := ip_be.bytes ++ List.replicate (X.sizeof_ip_be - 4) 0,
            lcore_id := lcore_id }) w).2 := by
  have he := arp_enabled_eq_true lls_conf h
  refine ⟨?_, ?_, ?_, ?_⟩
  · simp [put_arp, he, memcpy_in_addr]
  · simp [in_addr.bytes]
  · simp [put_arp, he, memcpy_in_addr]
  · simp [put_arp, he, memcpy_in_addr]

/-- C7, evaluated: with ARP on the front interface and room in the mailbox, a
put for `10.0.0.1` from lcore 5 submits one PUT request and returns 0. -/
theorem put_arp_submits_one_put_witness :
    ((sample_conf front_only).arp_cache.iface_enabled (sample_conf front_only).net
        iface_ref.front = true ∨
      (sample_conf front_only).arp_cache.iface_enabled (sample_conf front_only).net
        iface_ref.back = true) ∧
    (put_arp (sample_ext all_ok []) (sample_conf front_only) sample_key 5 0).events =
      [Event.lls_req lls_req_ty.LLS_REQ_PUT
        (lls_req_arg.put_req
          { cache := cache_ref.arp_cache,
            ip_be := [10, 0, 0, 1, 0, 0, 0, 0, 0, 0, 0, 0, 0, 0, 0, 0],
            lcore_id := 5 }) 0] :=
  ⟨Or.inl rfl,
    (put_arp_submits_one_put (sample_ext all_ok []) (sample_conf front_only) sample_key 5 0
      (Or.inl rfl)).1.trans (by decide)⟩

/-- C7 as the specification words it fails: `put_arp` takes a key and an
lcore and no link address, so the request it submits for `10.0.0.1` from
lcore 5 is one and the same whichever link address the caller has learned; no
way of reading a request can yield the link address of the caller for both
`02:00:00:00:00:01` and `02:00:00:00:00:02`. -/
theorem put_arp_carries_no_link_address :
    ¬ ∃ carried : lls_req_arg → ether_addr,
      ∀ A ∈ [sample_mac 1, sample_mac 2], ∀ ty a r,
        Event.lls_req ty a r ∈
          (put_arp (sample_ext all_ok []) (sample_conf front_only) sample_key 5 0).events →
        carried a = A := by
  rintro ⟨carried, h⟩
  have h1 := h (sample_mac 1) (by simp) lls_req_ty.LLS_REQ_PUT
    (lls_req_arg.put_req
      { cache := cache_ref.arp_cache,
        ip_be := [10, 0, 0, 1, 0, 0, 0, 0, 0, 0, 0, 0, 0, 0, 0, 0],
        lcore_id := 5 }) 0 (by decide)
  have h2 := h (sample_mac 2) (by simp) lls_req_ty.LLS_REQ_PUT
    (lls_req_arg.put_req
      { cache := cache_ref.arp_cache,
        ip_be := [10, 0, 0, 1, 0, 0, 0, 0, 0, 0, 0, 0, 0, 0, 0, 0],
        lcore_id := 5 }) 0 (by decide)
  have h3 : sample_mac 1 = sample_mac 2 := h1.symm.trans h2
  exact absurd h3 (by decide)

end Requests

/-! ## Received frames: `process_pkts` -/

section Packets

variable {W : Type}

/-- What the loop body does for one buffer, as a function of the value `r`
that the handler returns for it: the events about that buffer. -/
theorem process_pkts_body_about (X : Externals W) (lls_conf : lls_config)
    (iface : gatekeeper_if) (tx_queue : Nat) (b : rte_mbuf) (w : W) :
    (process_pkts_body X lls_conf iface tx_queue b w).events.filter (about b) =
      if foreign_dst iface b then [Event.rte_pktmbuf_free b]
      else if rte_be_to_cpu_16 b.eth_hdr.ether_type = X.ETHER_TYPE_ARP then
        if (X.process_arp lls_conf iface tx_queue b w).1 = -1 then
          [Event.process_arp iface.id tx_queue b (-1), Event.rte_pktmbuf_free b]
        else [Event.process_arp iface.id tx_queue b (X.process_arp lls_conf iface tx_queue b w).1]
      else [Event.rte_pktmbuf_free b] := by
  by_cases h1 : foreign_dst iface b = true
  · have h1c : (!is_broadcast_ether_addr b.eth_hdr.d_addr &&
        !is_same_ether_addr b.eth_hdr.d_addr iface.eth_addr) = true := h1
    simp only [process_pkts_body, h1c, h1, if_true]
    simp [about]
  · have h1c : ¬ (!is_broadcast_ether_addr b.eth_hdr.d_addr &&
        !is_same_ether_addr b.eth_hdr.d_addr iface.eth_addr) = true := h1
    simp only [process_pkts_body, h1c, h1, if_false]
    by_cases h2 : rte_be_to_cpu_16 b.eth_hdr.ether_type = X.ETHER_TYPE_ARP
    · by_cases h3 : (X.process_arp lls_conf iface tx_queue b w).1 = -1
      · simp [h2, h3, about]
      · simp [h2, h3, about]
    · simp [h2, about]

theorem process_pkts_body_about_other (X : Externals W) (lls_conf : lls_config)
    (iface : gatekeeper_if) (tx_queue : Nat) (buf b : rte_mbuf) (w : W) (hne : buf ≠ b) :
    (process_pkts_body X lls_conf iface tx_queue buf w).events.filter (about b) = [] := by
  simp only [process_pkts_body]
  split_ifs <;> simp [about, hne]

theorem process_pkts_loop_about_absent (X : Externals W) (lls_conf : lls_config)
    (iface : gatekeeper_if) (tx_queue : Nat) (b : rte_mbuf) :
    ∀ (bufs : List rte_mbuf) (w : W), b ∉ bufs →
      (process_pkts_loop X lls_conf iface tx_queue bufs w).events.filter (about b) = [] := by
  intro bufs
  induction bufs with
  | nil => intro w _; simp [process_pkts_loop]
  | cons buf bufs ih =>
    intro w hb
    have hne : buf ≠ b := fun h => hb (by simp [h])
    have hb2 : b ∉ bufs := fun h => hb (by simp [h])
    simp [process_pkts_loop, List.filter_append,
      process_pkts_body_about_other X lls_conf iface tx_queue buf b w hne, ih _ hb2]

theorem process_pkts_loop_append (X : Externals W) (lls_conf : lls_config)
    (iface : gatekeeper_if) (tx_queue : Nat) :
    ∀ (pre post : List rte_mbuf) (w : W),
      (process_pkts_loop X lls_conf iface tx_queue (pre ++ post) w).events =
        (process_pkts_loop X lls_conf iface tx_queue pre w).events ++
          (process_pkts_loop X lls_conf iface tx_queue post
            (process_pkts_loop X lls_conf iface tx_queue pre w).world).events ∧
      (process_pkts_loop X lls_conf iface tx_queue (pre ++ post) w).world =
        (process_pkts_loop X lls_conf iface tx_queue post
          (process_pkts_loop X lls_conf iface tx_queue pre w).world).world := by
  intro pre
  induction pre with
  | nil => intro post w; simp [process_pkts_loop]
  | cons buf pre ih =>
    intro post w
    simp [process_pkts_loop, ih]

/-- A frame that the loop does not hand to the handler (its destination is
foreign or its EtherType is not ARP) is freed once for each time it occurs in
the burst, and no event hands it to the handler. -/
theorem process_pkts_loop_about_unhandled (X : Externals W) (lls_conf : lls_config)
    (iface : gatekeeper_if) (tx_queue : Nat) (b : rte_mbuf)
    (h : foreign_dst iface b = true ∨ rte_be_to_cpu_16 b.eth_hdr.ether_type ≠ X.ETHER_TYPE_ARP) :
    ∀ (bufs : List rte_mbuf) (w : W),
      (process_pkts_loop X lls_conf iface tx_queue bufs w).events.filter (about b) =
        List.replicate (bufs.count b) (Event.rte_pktmbuf_free b) := by
  intro bufs
  induction bufs with
  | nil => intro w; simp [process_pkts_loop]
  | cons buf bufs ih =>
    intro w
    by_cases hbb : buf = b
    · subst hbb
      have hb := process_pkts_body_about X lls_conf iface tx_queue buf w
      have hb2 : (process_pkts_body X lls_conf iface tx_queue buf w).events.filter (about buf) =
          [Event.rte_pktmbuf_free buf] := by
        rw [hb]
        rcases h with h | h
        · simp [h]
        · simp [h]
      simp [process_pkts_loop, List.filter_append, hb2, ih, List.replicate_succ]
    · simp [process_pkts_loop, List.filter_append,
        process_pkts_body_about_other X lls_conf iface tx_queue buf b w hbb, ih,
        List.count_cons_of_ne (Ne.symm hbb)]

/-- In a burst of distinct buffers, the events about a buffer are those of
the one pass through the loop body made for it. -/
theorem process_pkts_loop_about_once (X : Externals W) (lls_conf : lls_config)
    (iface : gatekeeper_if) (tx_queue : Nat) (b : rte_mbuf) :
    ∀ (bufs : List rte_mbuf) (w : W), bufs.Nodup → b ∈ bufs →
      ∃ w1 : W, (process_pkts_loop X lls_conf iface tx_queue bufs w).events.filter (about b) =
        (process_pkts_body X lls_conf iface tx_queue b w1).events.filter (about b) := by
  intro bufs
  induction bufs with
  | nil => intro w _ hb; simp at hb
  | cons buf bufs ih =>
    intro w hnd hb
    have hnd2 := List.nodup_cons.mp hnd
    by_cases hbb : buf = b
    · subst hbb
      refine ⟨w, ?_⟩
      simp [process_pkts_loop, List.filter_append,
        process_pkts_loop_about_absent X lls_conf iface tx_queue buf bufs _ hnd2.1]
    · have hb2 : b ∈ bufs := by
        rcases List.mem_cons.mp hb with h | h
        · exact absurd h.symm hbb
        · exact h
      obtain ⟨w1, hw1⟩ := ih (process_pkts_body X lls_conf iface tx_queue buf w).world hnd2.2 hb2
      refine ⟨w1, ?_⟩
      simp [process_pkts_loop, List.filter_append,
        process_pkts_body_about_other X lls_conf iface tx_queue buf b w hbb, hw1]

theorem released_filter_about (b : rte_mbuf) (evs : List Event) :
    released b evs = released b (evs.filter (about b)) := by
  unfold released
  rw [List.count_filter]
  simp [about]

theorem consumed_filter_about (b : rte_mbuf) (evs : List Event) :
    consumed b evs = consumed b (evs.filter (about b)) := by
  unfold consumed
  induction evs with
  | nil => simp
  | cons e evs ih =>
    by_cases h : about b e = true
    · simp [List.filter_cons, h, List.countP_cons, ih]
    · have hc : consumes b e = false := by
        cases e <;> simp_all [about, consumes]
      simp [List.filter_cons, h, List.countP_cons, ih, hc]

theorem process_arp_mem_filter_about (b : rte_mbuf) (evs : List Event)
    (i q : Nat) (r : Int) :
    Event.process_arp i q b r ∈ evs ↔ Event.process_arp i q b r ∈ evs.filter (about b) := by
  simp [List.mem_filter, about]

theorem process_pkts_events (X : Externals W) (lls_conf : lls_config)
    (iface : gatekeeper_if) (rx_queue tx_queue : Nat) (w : W) (b : rte_mbuf) :
    (process_pkts X lls_conf iface rx_queue tx_queue w).events.filter (about b) =
      (process_pkts_loop X lls_conf iface tx_queue
        (X.rte_eth_rx_burst iface.id rx_queue X.GATEKEEPER_MAX_PKT_BURST w).1
        (X.rte_eth_rx_burst iface.id rx_queue X.GATEKEEPER_MAX_PKT_BURST w).2).events.filter
        (about b) := by
  simp [process_pkts, List.filter_cons, about]

theorem process_pkts_loop_pkt_events (X : Externals W) (lls_conf : lls_config)
    (iface : gatekeeper_if) (tx_queue : Nat) :
    ∀ (bufs : List rte_mbuf) (w : W),
      ∀ e ∈ (process_pkts_loop X lls_conf iface tx_queue bufs w).events,
        is_pkt_event e = true := by
  intro bufs
  induction bufs with
  | nil => intro w e he; simp [process_pkts_loop] at he
  | cons buf bufs ih =>
    intro w e hmem
    simp only [process_pkts_loop, List.mem_append] at hmem
    rcases hmem with h | h
    · have hbody : ∀ e ∈ (process_pkts_body X lls_conf iface tx_queue buf w).events,
          is_pkt_event e = true := by
        simp only [process_pkts_body]
        split_ifs <;> simp [is_pkt_event]
      exact hbody e h
    · exact ih _ e h

theorem process_pkts_pkt_events (X : Externals W) (lls_conf : lls_config)
    (iface : gatekeeper_if) (rx_queue tx_queue : Nat) (w : W) :
    ∀ e ∈ (process_pkts X lls_conf iface rx_queue tx_queue w).events,
      is_pkt_event e = true := by
  intro e hmem
  simp only [process_pkts, List.mem_cons] at hmem
  rcases hmem with h | h
  · simp [h, is_pkt_event]
  · exact process_pkts_loop_pkt_events X lls_conf iface tx_queue _ _ e h

theorem process_pkts_no_lls_req (X : Externals W) (lls_conf : lls_config)
    (iface : gatekeeper_if) (rx_queue tx_queue : Nat) (w : W)
    (ty : lls_req_ty) (a : lls_req_arg) (r : Int) :
    Event.lls_req ty a r ∉ (process_pkts X lls_conf iface rx_queue tx_queue w).events := by
  intro hmem
  have h := process_pkts_pkt_events X lls_conf iface rx_queue tx_queue w _ hmem
  simp [is_pkt_event] at h

/-- C3: a frame of the received burst whose destination is neither the
broadcast address nor the address of the receiving interface contributes
exactly one event to `process_pkts`, the release of its buffer, whatever its
EtherType: the handler `process_arp` is never called on it, and the world
after the frame is the world before it with the buffer freed. -/
theorem foreign_frame_is_freed_unhandled (X : Externals W) (lls_conf : lls_config)
    (iface : gatekeeper_if) (rx_queue tx_queue : Nat) (w : W)
    (pre post : List rte_mbuf) (b : rte_mbuf)
    (hrx : (X.rte_eth_rx_burst iface.id rx_queue X.GATEKEEPER_MAX_PKT_BURST w).1 =
      pre ++ b :: post)
    (hb : is_broadcast_ether_addr b.eth_hdr.d_addr = false)
    (hs : is_same_ether_addr b.eth_hdr.d_addr iface.eth_addr = false) :
    (process_pkts X lls_conf iface rx_queue tx_queue w).events =
      Event.rte_eth_rx_burst iface.id rx_queue (pre ++ b :: post).length ::
        (process_pkts_loop X lls_conf iface tx_queue pre
          (X.rte_eth_rx_burst iface.id rx_queue X.GATEKEEPER_MAX_PKT_BURST w).2).events ++
        Event.rte_pktmbuf_free b ::
        (process_pkts_loop X lls_conf iface tx_queue post
          (X.rte_pktmbuf_free b (process_pkts_loop X lls_conf iface tx_queue pre
            (X.rte_eth_rx_burst iface.id rx_queue X.GATEKEEPER_MAX_PKT_BURST w).2).world)).events ∧
    (process_pkts X lls_conf iface rx_queue tx_queue w).world =
      (process_pkts_loop X lls_conf iface tx_queue post
        (X.rte_pktmbuf_free b (process_pkts_loop X lls_conf iface tx_queue pre
          (X.rte_eth_rx_burst iface.id rx_queue X.GATEKEEPER_MAX_PKT_BURST w).2).world)).world ∧
    (∀ i q r, Event.process_arp i q b r ∉
      (process_pkts X lls_conf iface rx_queue tx_queue w).events) ∧
    released b (process_pkts X lls_conf iface rx_queue tx_queue w).events =
      (pre ++ b :: post).count b := by
  have hf : foreign_dst iface b = true := by simp [foreign_dst, hb, hs]
  have hc : (!is_broadcast_ether_addr b.eth_hdr.d_addr &&
      !is_same_ether_addr b.eth_hdr.d_addr iface.eth_addr) = true := hf
  have hab := process_pkts_loop_about_unhandled X lls_conf iface tx_queue b (Or.inl hf)
    (pre ++ b :: post) (X.rte_eth_rx_burst iface.id rx_queue X.GATEKEEPER_MAX_PKT_BURST w).2
  have hev := process_pkts_events X lls_conf iface rx_queue tx_queue w b
  rw [hrx] at hev
  rw [hab] at hev
  have happ := process_pkts_loop_append X lls_conf iface tx_queue pre (b :: post)
    (X.rte_eth_rx_burst iface.id rx_queue X.GATEKEEPER_MAX_PKT_BURST w).2
  refine ⟨?_, ?_, ?_, ?_⟩
  · simp only [process_pkts, hrx, happ.1]
    simp [process_pkts_loop, process_pkts_body, hc]
  · simp only [process_pkts, hrx, happ.2]
    simp [process_pkts_loop, process_pkts_body, hc]
  · intro i q r hmem
    rw [process_arp_mem_filter_about, hev] at hmem
    simp [List.mem_replicate] at hmem
  · rw [released_filter_about, hev]
    simp [released]

/-- C3, evaluated on the sample burst: the third frame is for another
station; it is freed once and never reaches the handler. -/
theorem foreign_frame_is_freed_unhandled_witness :
    (is_broadcast_ether_addr (sample_frame 102 (sample_mac 9) arp_type).eth_hdr.d_addr = false ∧
      is_same_ether_addr (sample_frame 102 (sample_mac 9) arp_type).eth_hdr.d_addr
        sample_net.front.eth_addr = false) ∧
    (∀ i q r, Event.process_arp i q (sample_frame 102 (sample_mac 9) arp_type) r ∉
      (process_pkts (sample_ext all_ok sample_burst) (sample_conf front_only)
        sample_net.front 0 0 0).events) ∧
    released (sample_frame 102 (sample_mac 9) arp_type)
      (process_pkts (sample_ext all_ok sample_burst) (sample_conf front_only)
        sample_net.front 0 0 0).events = 1 :=
  have h := foreign_frame_is_freed_unhandled (sample_ext all_ok sample_burst)
    (sample_conf front_only) sample_net.front 0 0 0
    [sample_frame 100 broadcast_mac arp_type, sample_frame 101 (sample_mac 1) arp_type]
    [sample_frame 103 broadcast_mac ipv4_type]
    (sample_frame 102 (sample_mac 9) arp_type) rfl (by decide) (by decide)
  ⟨⟨by decide, by decide⟩, h.2.2.1, h.2.2.2.trans (by decide)⟩

/-- C8: a frame of the received burst that passes the destination check and
whose EtherType, read with `rte_be_to_cpu_16`, is not `ETHER_TYPE_ARP`
contributes exactly two events to `process_pkts`: the error logged, with the
name of the interface and the EtherType, and the release of its buffer.  The
handler `process_arp` is never called on it, no request is submitted for it,
and the world after the frame is the world before it with the buffer freed. -/
theorem non_arp_frame_is_logged_and_freed (X : Externals W) (lls_conf : lls_config)
    (iface : gatekeeper_if) (rx_queue tx_queue : Nat) (w : W)
    (pre post : List rte_mbuf) (b : rte_mbuf)
    (hrx : (X.rte_eth_rx_burst iface.id rx_queue X.GATEKEEPER_MAX_PKT_BURST w).1 =
      pre ++ b :: post)
    (hdst : is_broadcast_ether_addr b.eth_hdr.d_addr = true ∨
      is_same_ether_addr b.eth_hdr.d_addr iface.eth_addr = true)
    (hty : rte_be_to_cpu_16 b.eth_hdr.ether_type ≠ X.ETHER_TYPE_ARP) :
    (process_pkts X lls_conf iface rx_queue tx_queue w).events =
      Event.rte_eth_rx_burst iface.id rx_queue (pre ++ b :: post).length ::
        (process_pkts_loop X lls_conf iface tx_queue pre
          (X.rte_eth_rx_burst iface.id rx_queue X.GATEKEEPER_MAX_PKT_BURST w).2).events ++
        Event.RTE_LOG log_level.ERR
          (log_msg.unexpected_ether_type iface.name (rte_be_to_cpu_16 b.eth_hdr.ether_type)) ::
        Event.rte_pktmbuf_free b ::
        (process_pkts_loop X lls_conf iface tx_queue post
          (X.rte_pktmbuf_free b (process_pkts_loop X lls_conf iface tx_queue pre
            (X.rte_eth_rx_burst iface.id rx_queue X.GATEKEEPER_MAX_PKT_BURST w).2).world)).events ∧
    (process_pkts X lls_conf iface rx_queue tx_queue w).world =
      (process_pkts_loop X lls_conf iface tx_queue post
        (X.rte_pktmbuf_free b (process_pkts_loop X lls_conf iface tx_queue pre
          (X.rte_eth_rx_burst iface.id rx_queue X.GATEKEEPER_MAX_PKT_BURST w).2).world)).world ∧
    (∀ i q r, Event.process_arp i q b r ∉
      (process_pkts X lls_conf iface rx_queue tx_queue w).events) ∧
    (∀ ty a r, Event.lls_req ty a r ∉
      (process_pkts X lls_conf iface rx_queue tx_queue w).events) ∧
    released b (process_pkts X lls_conf iface rx_queue tx_queue w).events =
      (pre ++ b :: post).count b := by
  have hc : ¬ (!is_broadcast_ether_addr b.eth_hdr.d_addr &&
      !is_same_ether_addr b.eth_hdr.d_addr iface.eth_addr) = true := by
    rcases hdst with h | h <;> simp [h]
  have hab := process_pkts_loop_about_unhandled X lls_conf iface tx_queue b (Or.inr hty)
    (pre ++ b :: post) (X.rte_eth_rx_burst iface.id rx_queue X.GATEKEEPER_MAX_PKT_BURST w).2
  have hev := process_pkts_events X lls_conf iface rx_queue tx_queue w b
  rw [hrx] at hev
  rw [hab] at hev
  have happ := process_pkts_loop_append X lls_conf iface tx_queue pre (b :: post)
    (X.rte_eth_rx_burst iface.id rx_queue X.GATEKEEPER_MAX_PKT_BURST w).2
  refine ⟨?_, ?_, ?_, ?_, ?_⟩
  · simp only [process_pkts, hrx, happ.1]
    simp [process_pkts_loop, process_pkts_body, hc, hty]
  · simp only [process_pkts, hrx, happ.2]
    simp [process_pkts_loop, process_pkts_body, hc, hty]
  · intro i q r hmem
    rw [process_arp_mem_filter_about, hev] at hmem
    simp [List.mem_replicate] at hmem
  · intro ty a r hmem
    exact process_pkts_no_lls_req X lls_conf iface rx_queue tx_queue w ty a r hmem
  · rw [released_filter_about, hev]
    simp [released]

/-- C8, evaluated on the sample burst: the fourth frame is a broadcast IPv4
frame; the error is logged with EtherType `0x0800`, the buffer is freed once
and the handler is not called on it. -/
theorem non_arp_frame_is_logged_and_freed_witness :
    ((is_broadcast_ether_addr (sample_frame 103 broadcast_mac ipv4_type).eth_hdr.d_addr = true ∨
        is_same_ether_addr (sample_frame 103 broadcast_mac ipv4_type).eth_hdr.d_addr
          sample_net.front.eth_addr = true) ∧
      rte_be_to_cpu_16 (sample_frame 103 broadcast_mac ipv4_type).eth_hdr.ether_type ≠
        (sample_ext all_ok sample_burst).ETHER_TYPE_ARP) ∧
    Event.RTE_LOG log_level.ERR (log_msg.unexpected_ether_type "front" 0x0800) ∈
      (process_pkts (sample_ext all_ok sample_burst) (sample_conf front_only)
        sample_net.front 0 0 0).events ∧
    (∀ i q r, Event.process_arp i q (sample_frame 103 broadcast_mac ipv4_type) r ∉
      (process_pkts (sample_ext all_ok sample_burst) (sample_conf front_only)
        sample_net.front 0 0 0).events) ∧
    released (sample_frame 103 broadcast_mac ipv4_type)
      (process_pkts (sample_ext all_ok sample_burst) (sample_conf front_only)
        sample_net.front 0 0 0).events = 1 :=
  have h := non_arp_frame_is_logged_and_freed (sample_ext all_ok sample_burst)
    (sample_conf front_only) sample_net.front 0 0 0
    [sample_frame 100 broadcast_mac arp_type, sample_frame 101 (sample_mac 1) arp_type,
      sample_frame 102 (sample_mac 9) arp_type]
    [] (sample_frame 103 broadcast_mac ipv4_type) rfl (Or.inl (by decide)) (by decide)
  ⟨⟨Or.inl (by decide), by decide⟩, by rw [h.1]; simp [rte_be_to_cpu_16, sample_frame,
      ipv4_type, sample_net],
    h.2.2.1, h.2.2.2.2.trans (by decide)⟩

/-- C4: in a burst of distinct buffers every buffer gets exactly one of two
outcomes from `process_pkts`: either the loop frees it once, or the handler
kept it (it returned a value other than -1) and the loop does not free it.
The loop frees it exactly when the destination check fails, or the EtherType
is not ARP, or the handler was called on it and returned -1. -/
theorem each_buffer_has_one_outcome (X : Externals W) (lls_conf : lls_config)
    (iface : gatekeeper_if) (rx_queue tx_queue : Nat) (w : W)
    (hnd : (X.rte_eth_rx_burst iface.id rx_queue X.GATEKEEPER_MAX_PKT_BURST w).1.Nodup)
    (b : rte_mbuf)
    (hb : b ∈ (X.rte_eth_rx_burst iface.id rx_queue X.GATEKEEPER_MAX_PKT_BURST w).1) :
    released b (process_pkts X lls_conf iface rx_queue tx_queue w).events +
      consumed b (process_pkts X lls_conf iface rx_queue tx_queue w).events = 1 ∧
    (released b (process_pkts X lls_conf iface rx_queue tx_queue w).events = 1 ↔
      (foreign_dst iface b = true ∨
        rte_be_to_cpu_16 b.eth_hdr.ether_type ≠ X.ETHER_TYPE_ARP ∨
        Event.process_arp iface.id tx_queue b (-1) ∈
          (process_pkts X lls_conf iface rx_queue tx_queue w).events)) ∧
    (released b (process_pkts X lls_conf iface rx_queue tx_queue w).events = 0 ↔
      ∃ r : Int, r ≠ -1 ∧ Event.process_arp iface.id tx_queue b r ∈
        (process_pkts X lls_conf iface rx_queue tx_queue w).events) ∧
    (released b (process_pkts X lls_conf iface rx_queue tx_queue w).events = 0 ↔
      consumed b (process_pkts X lls_conf iface rx_queue tx_queue w).events = 1) := by
  obtain ⟨w1, hw1⟩ := process_pkts_loop_about_once X lls_conf iface tx_queue b _
    (X.rte_eth_rx_burst iface.id rx_queue X.GATEKEEPER_MAX_PKT_BURST w).2 hnd hb
  have hev := process_pkts_events X lls_conf iface rx_queue tx_queue w b
  rw [hw1, process_pkts_body_about] at hev
  have hmem : ∀ r, Event.process_arp iface.id tx_queue b r ∈
      (process_pkts X lls_conf iface rx_queue tx_queue w).events ↔
      Event.process_arp iface.id tx_queue b r ∈
        (process_pkts X lls_conf iface rx_queue tx_queue w).events.filter (about b) :=
    fun r => process_arp_mem_filter_about b _ iface.id tx_queue r
  simp only [hmem]
  rw [released_filter_about, consumed_filter_about, hev]
  by_cases h1 : foreign_dst iface b = true
  · simp [h1, released, consumed, consumes]
  · by_cases h2 : rte_be_to_cpu_16 b.eth_hdr.ether_type = X.ETHER_TYPE_ARP
    · by_cases h3 : (X.process_arp lls_conf iface tx_queue b w1).1 = -1
      · simp [h1, h2, h3, released, consumed, consumes]
      · simp [h1, h2, h3, released, consumed, consumes]
        exact fun h => h3 h.symm
    · simp [h1, h2, released, consumed, consumes]

/-- C4, evaluated on the sample burst: the handler fails on the second frame,
which the loop frees once; the handler keeps the first frame, which the loop
does not free. -/
theorem each_buffer_has_one_outcome_witness :
    ((sample_ext all_ok sample_burst).rte_eth_rx_burst sample_net.front.id 0
        (sample_ext all_ok sample_burst).GATEKEEPER_MAX_PKT_BURST 0).1.Nodup ∧
    sample_frame 101 (sample_mac 1) arp_type ∈
      ((sample_ext all_ok sample_burst).rte_eth_rx_burst sample_net.front.id 0
        (sample_ext all_ok sample_burst).GATEKEEPER_MAX_PKT_BURST 0).1 ∧
    released (sample_frame 101 (sample_mac 1) arp_type)
        (process_pkts (sample_ext all_ok sample_burst) (sample_conf front_only)
          sample_net.front 0 0 0).events +
      consumed (sample_frame 101 (sample_mac 1) arp_type)
        (process_pkts (sample_ext all_ok sample_burst) (sample_conf front_only)
          sample_net.front 0 0 0).events = 1 ∧
    released (sample_frame 101 (sample_mac 1) arp_type)
      (process_pkts (sample_ext all_ok sample_burst) (sample_conf front_only)
        sample_net.front 0 0 0).events = 1 ∧
    released (sample_frame 100 broadcast_mac arp_type)
      (process_pkts (sample_ext all_ok sample_burst) (sample_conf front_only)
        sample_net.front 0 0 0).events = 0 :=
  ⟨by decide, by decide,
    (each_buffer_has_one_outcome (sample_ext all_ok sample_burst) (sample_conf front_only)
      sample_net.front 0 0 0 (by decide) (sample_frame 101 (sample_mac 1) arp_type)
      (by decide)).1,
    by decide, by decide⟩

end Packets

/-! ## The service loop: `lls_proc` -/

section Loop

variable {W : Type}

theorem rte_timer_manage_events (X : Externals W) (lls_conf : lls_config) (w : W) :
    (rte_timer_manage X lls_conf w).events = [Event.rte_timer_manage] ∨
    (rte_timer_manage X lls_conf w).events =
      [Event.rte_timer_manage, Event.lls_cache_scan cache_ref.arp_cache] := by
  simp only [rte_timer_manage, lls_scan]
  split_ifs <;> simp

/-- The events of one iteration: those of the packet loops, then the drain of
the mailbox with the number `ret` it returned, then the timer check, which is
there exactly when `ret = 0`. -/
theorem lls_proc_iteration_events (X : Externals W) (lls_conf : lls_config) (w : W) :
    ∃ (pkts : List Event) (ret : Int) (timer : List Event),
      (lls_proc_iteration X lls_conf w).events = pkts ++ Event.lls_process_reqs ret :: timer ∧
      (∀ e ∈ pkts, is_pkt_event e = true) ∧
      (ret = 0 → timer = [Event.rte_timer_manage] ∨
        timer = [Event.rte_timer_manage, Event.lls_cache_scan cache_ref.arp_cache]) ∧
      (ret ≠ 0 → timer = []) := by
  have h1 := process_pkts_pkt_events X lls_conf lls_conf.net.front
    lls_conf.rx_queue_front lls_conf.tx_queue_front w
  have h2 := process_pkts_pkt_events X lls_conf lls_conf.net.back
    lls_conf.rx_queue_back lls_conf.tx_queue_back
    (process_pkts X lls_conf lls_conf.net.front
      lls_conf.rx_queue_front lls_conf.tx_queue_front w).world
  simp only [lls_proc_iteration]
  refine ⟨_, _, _, rfl, ?_, ?_, ?_⟩
  · intro e he
    rcases List.mem_append.mp he with h | h
    · exact h1 e h
    · split_ifs at h
      · exact h2 e h
      · simp at h
  · intro hz
    simp only [hz, if_true]
    exact rte_timer_manage_events X lls_conf _
  · intro hnz
    simp [hnz]

theorem lls_proc_loop_mem (X : Externals W) (lls_conf : lls_config) :
    ∀ (iters : Nat) (w : W), ∀ it ∈ (lls_proc_loop X lls_conf iters w).2,
      ∃ w1 : W, it = (lls_proc_iteration X lls_conf w1).events := by
  intro iters
  induction iters with
  | zero => intro w it h; simp [lls_proc_loop] at h
  | succ n ih =>
    intro w it h
    simp only [lls_proc_loop, List.mem_cons] at h
    rcases h with h | h
    · exact ⟨w, h⟩
    · exact ih _ it h

theorem lls_proc_loop_length (X : Externals W) (lls_conf : lls_config) :
    ∀ (iters : Nat) (w : W), (lls_proc_loop X lls_conf iters w).2.length = iters := by
  intro iters
  induction iters with
  | zero => intro w; simp [lls_proc_loop]
  | succ n ih => intro w; simp [lls_proc_loop, ih]

/-- C5: a run of `lls_proc` is a sequence of iterations followed by the
clean-up, and in every iteration the mailbox is drained exactly once, with
some result `ret`, and `rte_timer_manage` is called (once) if and only if
`ret = 0`; in an iteration with `ret ≠ 0` neither the timer check nor a scan
of the cache happens. -/
theorem timer_checked_iff_nothing_drained (X : Externals W) (lls_conf : lls_config)
    (iters : Nat) (w : W) :
    (lls_proc X lls_conf iters w).events =
      Event.RTE_LOG log_level.NOTICE (log_msg.block_running lls_conf.lcore_id) ::
        (lls_proc_loop X lls_conf iters w).2.flatten ++
        Event.RTE_LOG log_level.NOTICE (log_msg.block_exiting lls_conf.lcore_id) ::
        (cleanup_lls X lls_conf (lls_proc_loop X lls_conf iters w).1).events ∧
    (lls_proc_loop X lls_conf iters w).2.length = iters ∧
    ∀ it ∈ (lls_proc_loop X lls_conf iters w).2, ∃ ret : Int,
      it.count (Event.lls_process_reqs ret) = 1 ∧
      (∀ r, Event.lls_process_reqs r ∈ it → r = ret) ∧
      (Event.rte_timer_manage ∈ it ↔ ret = 0) ∧
      it.count Event.rte_timer_manage = (if ret = 0 then 1 else 0) ∧
      (ret ≠ 0 → ∀ c, Event.lls_cache_scan c ∉ it) := by
  refine ⟨rfl, lls_proc_loop_length X lls_conf iters w, ?_⟩
  intro it hit
  obtain ⟨w1, rfl⟩ := lls_proc_loop_mem X lls_conf iters w it hit
  obtain ⟨pkts, ret, timer, hev, hp, hz, hnz⟩ := lls_proc_iteration_events X lls_conf w1
  have hcnt : ∀ e : Event, is_pkt_event e = false → pkts.count e = 0 := by
    intro e he
    apply List.count_eq_zero.mpr
    intro hmem
    rw [hp e hmem] at he
    cases he
  have hnm : ∀ e : Event, is_pkt_event e = false → e ∉ pkts := by
    intro e he hmem
    rw [hp e hmem] at he
    cases he
  refine ⟨ret, ?_⟩
  rw [hev]
  by_cases hr : ret = 0
  · rcases hz hr with ht | ht
    · subst ht
      simp [List.count_append, List.count_cons, hcnt, hnm, is_pkt_event, hr]
    · subst ht
      simp [List.count_append, List.count_cons, hcnt, hnm, is_pkt_event, hr]
  · have ht := hnz hr
    subst ht
    simp [List.count_append, List.count_cons, hcnt, hnm, is_pkt_event, hr]

/-- C5, evaluated: with one request waiting in the mailbox, the first
iteration drains it and does not check the timer, and the second iteration
drains nothing and checks the timer, which runs the scan. -/
theorem timer_checked_iff_nothing_drained_witness :
    (lls_proc_loop (sample_ext all_ok []) (sample_conf front_only) 2 1).2 =
      [[Event.rte_eth_rx_burst 0 0 0, Event.rte_eth_rx_burst 1 0 0, Event.lls_process_reqs 1],
       [Event.rte_eth_rx_burst 0 0 0, Event.rte_eth_rx_burst 1 0 0, Event.lls_process_reqs 0,
        Event.rte_timer_manage, Event.lls_cache_scan cache_ref.arp_cache]] ∧
    ∀ it ∈ (lls_proc_loop (sample_ext all_ok []) (sample_conf front_only) 2 1).2, ∃ ret : Int,
      it.count (Event.lls_process_reqs ret) = 1 ∧
      (∀ r, Event.lls_process_reqs r ∈ it → r = ret) ∧
      (Event.rte_timer_manage ∈ it ↔ ret = 0) ∧
      it.count Event.rte_timer_manage = (if ret = 0 then 1 else 0) ∧
      (ret ≠ 0 → ∀ c, Event.lls_cache_scan c ∉ it) :=
  ⟨by decide,
    (timer_checked_iff_nothing_drained (sample_ext all_ok []) (sample_conf front_only) 2 1).2.2⟩

end Loop

/-! ## Start-up and clean-up: `run_lls`, `cleanup_lls` -/

section Startup

variable {W : Type}

/-- The runs of `run_lls` on arguments that are not `NULL`, case by case: the
codes `c1`, ..., `c6` are what the six set-up calls returned, as far as the
run got. -/
theorem run_lls_cases (X : Externals W) (net_conf : net_config)
    (lls_conf : lls_config) (w : W) :
    ∃ (c1 c2 c3 c4 c5 c6 : Int) (ticks : Nat) (evs : List Event) (ret : Int),
      (run_lls X (some net_conf) (some lls_conf) w).out.events = evs ∧
      (run_lls X (some net_conf) (some lls_conf) w).out.ret = ret ∧
      ((c1 < 0 ∧ ret = c1 ∧
          evs = [Event.net_launch_at_stage1 1 1 1 1 stage_fn.lls_stage1 c1]) ∨
        (0 ≤ c1 ∧ c2 < 0 ∧ ret = c2 ∧
          evs = [Event.net_launch_at_stage1 1 1 1 1 stage_fn.lls_stage1 c1,
            Event.launch_at_stage2 stage_fn.lls_stage2 c2,
            Event.pop_n_at_stage1 1]) ∨
        (0 ≤ c1 ∧ 0 ≤ c2 ∧ c3 < 0 ∧ ret = c3 ∧
          evs = [Event.net_launch_at_stage1 1 1 1 1 stage_fn.lls_stage1 c1,
            Event.launch_at_stage2 stage_fn.lls_stage2 c2,
            Event.launch_at_stage3 "lls" stage_fn.lls_proc lls_conf.lcore_id c3,
            Event.pop_n_at_stage2 1, Event.pop_n_at_stage1 1]) ∨
        (0 ≤ c1 ∧ 0 ≤ c2 ∧ 0 ≤ c3 ∧ c4 < 0 ∧ ret = c4 ∧
          evs = [Event.net_launch_at_stage1 1 1 1 1 stage_fn.lls_stage1 c1,
            Event.launch_at_stage2 stage_fn.lls_stage2 c2,
            Event.launch_at_stage3 "lls" stage_fn.lls_proc lls_conf.lcore_id c3,
            Event.rte_timer_init,
            Event.rte_timer_reset ticks rte_timer_type.PERIODICAL lls_conf.lcore_id c4,
            Event.RTE_LOG log_level.ERR log_msg.cannot_set_scan_timer,
            Event.pop_n_at_stage3 1, Event.pop_n_at_stage2 1, Event.pop_n_at_stage1 1]) ∨
        (0 ≤ c1 ∧ 0 ≤ c2 ∧ 0 ≤ c3 ∧ 0 ≤ c4 ∧ c5 < 0 ∧ ret = c5 ∧
          evs = [Event.net_launch_at_stage1 1 1 1 1 stage_fn.lls_stage1 c1,
            Event.launch_at_stage2 stage_fn.lls_stage2 c2,
            Event.launch_at_stage3 "lls" stage_fn.lls_proc lls_conf.lcore_id c3,
            Event.rte_timer_init,
            Event.rte_timer_reset ticks rte_timer_type.PERIODICAL lls_conf.lcore_id c4,
            Event.init_mailbox "lls_req" c5,
            Event.rte_timer_stop,
            Event.pop_n_at_stage3 1, Event.pop_n_at_stage2 1, Event.pop_n_at_stage1 1]) ∨
        (0 ≤ c1 ∧ 0 ≤ c2 ∧ 0 ≤ c3 ∧ 0 ≤ c4 ∧ 0 ≤ c5 ∧ c6 < 0 ∧ ret = c6 ∧
          arp_enabled { lls_conf with net := net_conf } = true ∧
          evs = [Event.net_launch_at_stage1 1 1 1 1 stage_fn.lls_stage1 c1,
            Event.launch_at_stage2 stage_fn.lls_stage2 c2,
            Event.launch_at_stage3 "lls" stage_fn.lls_proc lls_conf.lcore_id c3,
            Event.rte_timer_init,
            Event.rte_timer_reset ticks rte_timer_type.PERIODICAL lls_conf.lcore_id c4,
            Event.init_mailbox "lls_req" c5,
            Event.lls_cache_init cache_ref.arp_cache c6,
            Event.RTE_LOG log_level.ERR log_msg.arp_cache_cannot_be_started,
            Event.destroy_mailbox, Event.rte_timer_stop,
            Event.pop_n_at_stage3 1, Event.pop_n_at_stage2 1, Event.pop_n_at_stage1 1]) ∨
        (0 ≤ c1 ∧ 0 ≤ c2 ∧ 0 ≤ c3 ∧ 0 ≤ c4 ∧ 0 ≤ c5 ∧ 0 ≤ c6 ∧ ret = 0 ∧
          arp_enabled { lls_conf with net := net_conf } = true ∧
          (∃ conf : lls_config,
            (run_lls X (some net_conf) (some lls_conf) w).lls_conf = some conf ∧
            conf.net = net_conf ∧
            conf.arp_cache.iface_enabled = lls_conf.arp_cache.iface_enabled) ∧
          evs = [Event.net_launch_at_stage1 1 1 1 1 stage_fn.lls_stage1 c1,
            Event.launch_at_stage2 stage_fn.lls_stage2 c2,
            Event.launch_at_stage3 "lls" stage_fn.lls_proc lls_conf.lcore_id c3,
            Event.rte_timer_init,
            Event.rte_timer_reset ticks rte_timer_type.PERIODICAL lls_conf.lcore_id c4,
            Event.init_mailbox "lls_req" c5,
            Event.lls_cache_init cache_ref.arp_cache c6]) ∨
        (0 ≤ c1 ∧ 0 ≤ c2 ∧ 0 ≤ c3 ∧ 0 ≤ c4 ∧ 0 ≤ c5 ∧ ret = 0 ∧
          arp_enabled { lls_conf with net := net_conf } = false ∧
          (∃ conf : lls_config,
            (run_lls X (some net_conf) (some lls_conf) w).lls_conf = some conf ∧
            conf.net = net_conf ∧
            conf.arp_cache.iface_enabled = lls_conf.arp_cache.iface_enabled) ∧
          evs = [Event.net_launch_at_stage1 1 1 1 1 stage_fn.lls_stage1 c1,
            Event.launch_at_stage2 stage_fn.lls_stage2 c2,
            Event.launch_at_stage3 "lls" stage_fn.lls_proc lls_conf.lcore_id c3,
            Event.rte_timer_init,
            Event.rte_timer_reset ticks rte_timer_type.PERIODICAL lls_conf.lcore_id c4,
            Event.init_mailbox "lls_req" c5])) := by
  simp only [run_lls]
  generalize X.net_launch_at_stage1 net_conf 1 1 1 1 stage_fn.lls_stage1 lls_conf w = r1
  by_cases h1 : r1.1 < 0
  · refine ⟨r1.1, 0, 0, 0, 0, 0, 0, _, _, rfl, rfl, Or.inl ?_⟩
    simp [run_lls_fail, run_lls_out, h1]
  have g1 : 0 ≤ r1.1 := not_lt.mp h1
  simp only [h1, if_false]
  generalize X.launch_at_stage2 stage_fn.lls_stage2 lls_conf r1.2 = r2
  by_cases h2 : r2.1 < 0
  · refine ⟨r1.1, r2.1, 0, 0, 0, 0, 0, _, _, rfl, rfl, Or.inr (Or.inl ?_)⟩
    simp [run_lls_fail, run_lls_out, run_lls_stage1, h2, g1]
  have g2 : 0 ≤ r2.1 := not_lt.mp h2
  simp only [h2, if_false]
  generalize X.launch_at_stage3 "lls" stage_fn.lls_proc lls_conf lls_conf.lcore_id r2.2 = r3
  by_cases h3 : r3.1 < 0
  · refine ⟨r1.1, r2.1, r3.1, 0, 0, 0, 0, _, _, rfl, rfl, Or.inr (Or.inr (Or.inl ?_))⟩
    simp [run_lls_fail, run_lls_out, run_lls_stage1, run_lls_stage2, h3, g1, g2]
  have g3 : 0 ≤ r3.1 := not_lt.mp h3
  simp only [h3, if_false]
  generalize LLS_CACHE_SCAN_INTERVAL * X.rte_get_timer_hz (X.rte_timer_init r3.2) % 2 ^ 64 = ticks
  generalize X.rte_timer_reset ticks rte_timer_type.PERIODICAL lls_conf.lcore_id
    (X.rte_timer_init r3.2) = r4
  by_cases h4 : r4.1 < 0
  · refine ⟨r1.1, r2.1, r3.1, r4.1, 0, 0, ticks, _, _, rfl, rfl,
      Or.inr (Or.inr (Or.inr (Or.inl ?_)))⟩
    simp [run_lls_fail, run_lls_out, run_lls_stage1, run_lls_stage2, run_lls_stage3,
      h4, g1, g2, g3]
  have g4 : 0 ≤ r4.1 := not_lt.mp h4
  simp only [h4, if_false]
  generalize X.init_mailbox "lls_req" X.MAILBOX_MAX_ENTRIES X.sizeof_lls_request
    lls_conf.lcore_id r4.2 = r5
  by_cases h5 : r5.1 < 0
  · refine ⟨r1.1, r2.1, r3.1, r4.1, r5.1, 0, ticks, _, _, rfl, rfl,
      Or.inr (Or.inr (Or.inr (Or.inr (Or.inl ?_))))⟩
    simp [run_lls_fail, run_lls_out, run_lls_stage1, run_lls_stage2, run_lls_stage3,
      run_lls_timer, h5, g1, g2, g3, g4]
  have g5 : 0 ≤ r5.1 := not_lt.mp h5
  simp only [h5, if_false]
  by_cases he : arp_enabled { lls_conf with net := net_conf } = true
  · simp only [he, if_true]
    generalize X.lls_cache_init { lls_conf with net := net_conf } cache_ref.arp_cache r5.2 = r6
    by_cases h6 : r6.1 < 0
    · refine ⟨r1.1, r2.1, r3.1, r4.1, r5.1, r6.1, ticks, _, _, rfl, rfl,
        Or.inr (Or.inr (Or.inr (Or.inr (Or.inr (Or.inl ?_)))))⟩
      simp [run_lls_fail, run_lls_out, run_lls_stage1, run_lls_stage2, run_lls_stage3,
        run_lls_timer, run_lls_requests, h6, g1, g2, g3, g4, g5]
    · have g6 : 0 ≤ r6.1 := not_lt.mp h6
      refine ⟨r1.1, r2.1, r3.1, r4.1, r5.1, r6.1, ticks, _, _, rfl, rfl,
        Or.inr (Or.inr (Or.inr (Or.inr (Or.inr (Or.inr (Or.inl ?_))))))⟩
      simp only [h6, if_false]
      refine ⟨g1, g2, g3, g4, g5, g6, ?_, ?_, ⟨_, rfl, ?_, ?_⟩, by simp⟩
      · first | rfl | trivial
      · first | exact he | trivial
      · split_ifs <;> rfl
      · split_ifs <;> rfl
  · have he2 : arp_enabled { lls_conf with net := net_conf } = false := by
      simpa using he
    refine ⟨r1.1, r2.1, r3.1, r4.1, r5.1, 0, ticks, _, _, rfl, rfl,
      Or.inr (Or.inr (Or.inr (Or.inr (Or.inr (Or.inr (Or.inr ?_))))))⟩
    simp only [he, if_false]
    refine ⟨g1, g2, g3, g4, g5, ?_, ?_, ?_, by simp⟩
    · rfl
    · simp [he2]
    · simp

theorem arp_enabled_congr (c1 c2 : lls_config) (hn : c1.net = c2.net)
    (hf : c1.arp_cache.iface_enabled = c2.arp_cache.iface_enabled) :
    arp_enabled c1 = arp_enabled c2 := by
  simp [arp_enabled, hn, hf]

/-- What a successful run of `run_lls` leaves: the ARP service of the
resulting configuration is enabled exactly when it was for the interfaces
given, and the steps that succeeded are the three stages, the timer, the
mailbox and, when ARP is enabled, the cache. -/
theorem run_lls_success (X : Externals W) (net_conf : net_config)
    (lls_conf0 : lls_config) (w0 : W) (lls_conf : lls_config)
    (hret : (run_lls X (some net_conf) (some lls_conf0) w0).out.ret = 0)
    (hconf : (run_lls X (some net_conf) (some lls_conf0) w0).lls_conf = some lls_conf) :
    arp_enabled lls_conf = arp_enabled { lls_conf0 with net := net_conf } ∧
    succeeded (run_lls X (some net_conf) (some lls_conf0) w0).out.events =
      [setup_step.stage1, setup_step.stage2, setup_step.stage3, setup_step.scan_timer,
        setup_step.mailbox] ++
        (if arp_enabled lls_conf then [setup_step.arp_cache] else []) ∧
    ((∃ c, 0 ≤ c ∧ Event.lls_cache_init cache_ref.arp_cache c ∈
        (run_lls X (some net_conf) (some lls_conf0) w0).out.events) ↔
      arp_enabled lls_conf = true) ∧
    ((∃ c, Event.lls_cache_init cache_ref.arp_cache c ∈
        (run_lls X (some net_conf) (some lls_conf0) w0).out.events) ↔
      arp_enabled lls_conf = true) := by
  obtain ⟨c1, c2, c3, c4, c5, c6, ticks, evs, ret, hev, hr, hc⟩ :=
    run_lls_cases X net_conf lls_conf0 w0
  rw [hev]
  rw [hr] at hret
  rcases hc with h | h | h | h | h | h | h | h
  · obtain ⟨h1, h2, _⟩ := h; omega
  · obtain ⟨_, h1, h2, _⟩ := h; omega
  · obtain ⟨_, _, h1, h2, _⟩ := h; omega
  · obtain ⟨_, _, _, h1, h2, _⟩ := h; omega
  · obtain ⟨_, _, _, _, h1, h2, _⟩ := h; omega
  · obtain ⟨_, _, _, _, _, h1, h2, _⟩ := h; omega
  · obtain ⟨g1, g2, g3, g4, g5, g6, _, he, ⟨conf, hc1, hc2, hc3⟩, rfl⟩ := h
    rw [hconf] at hc1
    cases hc1
    have hen : arp_enabled lls_conf = arp_enabled { lls_conf0 with net := net_conf } :=
      arp_enabled_congr _ _ hc2 hc3
    have n1 := not_lt.mpr g1
    have n2 := not_lt.mpr g2
    have n3 := not_lt.mpr g3
    have n4 := not_lt.mpr g4
    have n5 := not_lt.mpr g5
    have n6 := not_lt.mpr g6
    rw [hen, he]
    refine ⟨rfl, ?_, ?_, ?_⟩
    · simp [succeeded, attempt, n1, n2, n3, n4, n5, n6]
    · simp [g6]
    · simp
  · obtain ⟨g1, g2, g3, g4, g5, _, he, ⟨conf, hc1, hc2, hc3⟩, rfl⟩ := h
    rw [hconf] at hc1
    cases hc1
    have hen : arp_enabled lls_conf = arp_enabled { lls_conf0 with net := net_conf } :=
      arp_enabled_congr _ _ hc2 hc3
    have n1 := not_lt.mpr g1
    have n2 := not_lt.mpr g2
    have n3 := not_lt.mpr g3
    have n4 := not_lt.mpr g4
    have n5 := not_lt.mpr g5
    rw [hen, he]
    refine ⟨rfl, ?_, ?_, ?_⟩
    · simp [succeeded, attempt, n1, n2, n3, n4, n5]
    · simp
    · simp

theorem cleanup_lls_events (X : Externals W) (lls_conf : lls_config) (w : W) :
    (cleanup_lls X lls_conf w).events =
      (if arp_enabled lls_conf then [Event.lls_cache_destroy cache_ref.arp_cache] else []) ++
        [Event.destroy_mailbox, Event.rte_timer_stop] := by
  simp only [cleanup_lls]
  split_ifs <;> rfl

/-- C9 as the code has it: `cleanup_lls` releases the ARP cache (when ARP is
enabled), then destroys the mailbox, then stops the scan timer, and returns
0; `lls_proc` ends with exactly these calls and returns their result.  After
a successful `run_lls` this is the reverse of the order in which `run_lls`
acquired the three resources (timer, mailbox, cache). -/
theorem cleanup_lls_reverses_acquisition (X : Externals W) (net_conf : net_config)
    (lls_conf0 : lls_config) (w0 : W) (lls_conf : lls_config) (iters : Nat) (w : W)
    (hret : (run_lls X (some net_conf) (some lls_conf0) w0).out.ret = 0)
    (hconf : (run_lls X (some net_conf) (some lls_conf0) w0).lls_conf = some lls_conf) :
    (cleanup_lls X lls_conf w).events =
      (if arp_enabled lls_conf then [Event.lls_cache_destroy cache_ref.arp_cache] else []) ++
        [Event.destroy_mailbox, Event.rte_timer_stop] ∧
    (cleanup_lls X lls_conf w).ret = 0 ∧
    (succeeded (run_lls X (some net_conf) (some lls_conf0) w0).out.events).filter is_resource =
      [setup_step.scan_timer, setup_step.mailbox] ++
        (if arp_enabled lls_conf then [setup_step.arp_cache] else []) ∧
    (cleanup_lls X lls_conf w).events =
      rollback ((succeeded
        (run_lls X (some net_conf) (some lls_conf0) w0).out.events).filter is_resource) ∧
    (lls_proc X lls_conf iters w).events =
      Event.RTE_LOG log_level.NOTICE (log_msg.block_running lls_conf.lcore_id) ::
        (lls_proc_loop X lls_conf iters w).2.flatten ++
        Event.RTE_LOG log_level.NOTICE (log_msg.block_exiting lls_conf.lcore_id) ::
        (cleanup_lls X lls_conf (lls_proc_loop X lls_conf iters w).1).events ∧
    (lls_proc X lls_conf iters w).ret = 0 := by
  obtain ⟨_, hs, _, _⟩ := run_lls_success X net_conf lls_conf0 w0 lls_conf hret hconf
  rw [hs, cleanup_lls_events]
  refine ⟨rfl, rfl, ?_, ?_, rfl, rfl⟩
  · split_ifs <;> simp [is_resource]
  · split_ifs <;> simp [is_resource, rollback, undo]

/-- C9, evaluated: after a start with ARP on the front interface, the
clean-up releases the cache, destroys the mailbox and stops the timer, in
this order. -/
theorem cleanup_lls_reverses_acquisition_witness :
    ((run_lls (sample_ext all_ok []) (some sample_net) (some (sample_conf front_only)) 0).out.ret
        = 0 ∧
      (run_lls (sample_ext all_ok []) (some sample_net)
        (some (sample_conf front_only)) 0).lls_conf = some sample_started) ∧
    (cleanup_lls (sample_ext all_ok []) sample_started 0).events =
      [Event.lls_cache_destroy cache_ref.arp_cache, Event.destroy_mailbox,
        Event.rte_timer_stop] ∧
    (succeeded (run_lls (sample_ext all_ok []) (some sample_net)
        (some (sample_conf front_only)) 0).out.events).filter is_resource =
      [setup_step.scan_timer, setup_step.mailbox, setup_step.arp_cache] :=
  have h := cleanup_lls_reverses_acquisition (sample_ext all_ok []) sample_net
    (sample_conf front_only) 0 sample_started 0 0 rfl rfl
  ⟨⟨rfl, rfl⟩, h.1.trans rfl, h.2.2.1.trans rfl⟩

/-- C9 as the specification words it fails: with ARP enabled, the clean-up
does not stop the timer before it destroys the mailbox. -/
theorem cleanup_lls_order_counterexample :
    (cleanup_lls (sample_ext all_ok []) sample_started 0).events ≠
      [Event.lls_cache_destroy cache_ref.arp_cache, Event.rte_timer_stop,
        Event.destroy_mailbox] := by
  decide

end Startup

end LLS
